import Mathlib

/-!
Verification of the bearer-token verifier in `src/app/core/auth.py`
(`VerifyToken.verify` together with its process-wide `_jwk_clients` cache and
the PyJWT / `PyJWKClient` behaviour it invokes).

The embedding mirrors the Python control flow step by step:
  1. `jwt.decode(token, options={"verify_signature": False})` and the
     `iss` extraction (lines 19-23);
  2. the `_jwk_clients` dict lookup / `PyJWKClient` construction (lines 26-30);
  3. `get_signing_key_from_jwt` with the clear-cache-and-retry-once handler
     (lines 32-42);
  4. the verifying `jwt.decode(..., algorithms=["RS256"],
     options={"verify_aud": False}, issuer=issuer)` (lines 45-51);
  5. the `sub` extraction (lines 53-57) and the two exception handlers
     mapping everything to HTTP 401 (lines 59-72).

Signatures are idealised: a token records the key material its signature
actually verifies under (`sigKey`), so signature verification under a key
succeeds exactly when the materials agree.  The network is a map from URL to
the key set it currently serves (`none` models an unreachable endpoint or a
timeout); it is fixed during a single `verify` call.  Fetches performed
during the call are counted explicitly.
-/

namespace AuthCore

/-- A public signing key from a JWKS document: key id (`kid`) plus abstract
public-key material. -/
structure JWK where
  kid : String
  material : Nat
deriving DecidableEq

/-- The claims segment of a token, restricted to the claims `verify` and the
verifying `jwt.decode` read: `iss`, `sub`, `exp`, `aud`. -/
structure TokenPayload where
  iss : Option String
  sub : Option String
  exp : Option Int
  aud : Option (List String)
deriving DecidableEq

/-- A structurally well-formed token: header fields `kid` and `alg`, the
claims, and `sigKey`, the key material its signature verifies under (the
idealised signature: a signature is valid exactly under the key that
produced it). -/
structure TokenData where
  kid : Option String
  alg : String
  payload : TokenPayload
  sigKey : Nat
deriving DecidableEq

/-- A bearer token as `jwt.decode` sees it: structurally unparseable
(raises `DecodeError`) or parsed. -/
inductive Token where
  | malformed : Token
  | wf : TokenData → Token
deriving DecidableEq

/-- `jwt.PyJWKClient`: the JWKS URL it was constructed with and the key set
it has cached internally (`cache_jwk_set`), `none` until a successful
fetch. Constructing a client performs no fetch. -/
structure JWKClient where
  url : String
  cached : Option (List JWK)
deriving DecidableEq

/-- The `VerifyToken._jwk_clients` dict: issuer URL → cached client. -/
abbrev Cache := List (String × JWKClient)

/-- The network: the key set each URL currently serves; `none` models a
fetch failure (unreachable endpoint, timeout). -/
abbrev Net := String → Option (List JWK)

/-- Internal failure taxonomy of one `verify` call.  `missingIssuer` and
`missingSubject` are raised in `auth.py` as plain `Exception`s; every other
kind surfaces as a `jwt.PyJWTError` subclass. -/
inductive ErrKind where
  | malformedToken
  | missingIssuer
  | fetchFailed
  | keyNotFound
  | invalidAlgorithm
  | invalidSignature
  | expired
  | issuerMismatch
  | missingSubject
deriving DecidableEq

/-- Dict lookup on the `_jwk_clients` mapping. -/
def lookupC (i : String) : Cache → Option JWKClient
  | [] => none
  | (j, c) :: rest => if j = i then some c else lookupC i rest

/-- Dict assignment `self._jwk_clients[issuer] = client`. -/
def setC (st : Cache) (i : String) (c : JWKClient) : Cache :=
  match st with
  | [] => [(i, c)]
  | (j, d) :: rest => if j = i then (i, c) :: rest else (j, d) :: setC rest i c

/-- Dict deletion `del self._jwk_clients[issuer]`. -/
def delC (i : String) : Cache → Cache
  | [] => []
  | (j, c) :: rest => if j = i then delC i rest else (j, c) :: delC i rest

/-- The discovery URL built at lines 27 and 39:
`f"{issuer}/.well-known/jwks.json"`. -/
def jwksUrl (i : String) : String := i ++ "/.well-known/jwks.json"

/-- A freshly constructed `jwt.PyJWKClient(jwks_url)`: no key set cached. -/
def freshClient (i : String) : JWKClient := ⟨jwksUrl i, none⟩

/-- Key selection inside `get_signing_key_from_jwt`: look up the token
header's `kid` in a key set; `PyJWKClientError` ("Unable to find a signing
key") when the header has no `kid` or no key matches. -/
def findKey (s : List JWK) (kid : Option String) : Except ErrKind JWK :=
  match kid with
  | none => Except.error ErrKind.keyNotFound
  | some k =>
    match s.find? (fun j => j.kid == k) with
    | some j => Except.ok j
    | none => Except.error ErrKind.keyNotFound

/-- One `get_signing_key_from_jwt(token)` call on a client, following
`PyJWKClient.get_signing_key`: resolve the key set (the client's cached
set if present, else one fetch); an empty key set raises
`PyJWKClientError` ("did not contain any signing keys") with no further
fetch; when the header `kid` misses a non-empty set, the client refreshes
once — `get_signing_keys(refresh=True)`, one more fetch bypassing its
cache — and matches again before raising.  A successful fetch replaces
the client's cached set; a failed fetch resets it (`fetch_data` puts
`None` into the set cache in its `finally`).  Returns the client's state
after the call, the number of network fetches made (0, 1 or 2), and the
selected key or the error raised. -/
def attemptKey (net : Net) (c : JWKClient) (kid : Option String) :
    JWKClient × Nat × Except ErrKind JWK :=
  match c.cached with
  | some s =>
    if s = [] then (c, 0, Except.error ErrKind.keyNotFound)
    else
      match findKey s kid with
      | Except.ok j => (c, 0, Except.ok j)
      | Except.error _ =>
        match net c.url with
        | none => ({ c with cached := none }, 1, Except.error ErrKind.fetchFailed)
        | some s2 =>
          if s2 = [] then
            ({ c with cached := some s2 }, 1, Except.error ErrKind.keyNotFound)
          else ({ c with cached := some s2 }, 1, findKey s2 kid)
  | none =>
    match net c.url with
    | none => (c, 1, Except.error ErrKind.fetchFailed)
    | some s =>
      if s = [] then ({ c with cached := some s }, 1, Except.error ErrKind.keyNotFound)
      else
        match findKey s kid with
        | Except.ok j => ({ c with cached := some s }, 1, Except.ok j)
        | Except.error _ =>
          match net c.url with
          | none => ({ c with cached := none }, 2, Except.error ErrKind.fetchFailed)
          | some s2 =>
            if s2 = [] then
              ({ c with cached := some s2 }, 2, Except.error ErrKind.keyNotFound)
            else ({ c with cached := some s2 }, 2, findKey s2 kid)

/-- Signature check of the verifying `jwt.decode`: under the idealised
signature, the token verifies under `key` iff the materials agree. -/
def sigValid (key : JWK) (d : TokenData) : Bool := d.sigKey == key.material

/-- PyJWT `_validate_exp` with zero leeway: a present `exp` claim is
expired when `exp <= now`; an absent `exp` claim is never checked. -/
def expiredAt (now : Int) (p : TokenPayload) : Bool :=
  match p.exp with
  | some e => e ≤ now
  | none => false

/-- The verifying `jwt.decode(token, key, algorithms=["RS256"],
options={"verify_aud": False}, issuer=i)` (lines 45-51): header `alg` must
be the fixed `"RS256"`, the signature must verify under `key`, the `exp`
claim (when present) must not have elapsed, and the `iss` claim must equal
the `issuer` argument.  The audience claim is never inspected. -/
def decodeVerified (now : Int) (key : JWK) (i : String) (d : TokenData) :
    Except ErrKind TokenPayload :=
  if d.alg = "RS256" then
    if sigValid key d then
      if expiredAt now d.payload then Except.error ErrKind.expired
      else if d.payload.iss = some i then Except.ok d.payload
      else Except.error ErrKind.issuerMismatch
    else Except.error ErrKind.invalidSignature
  else Except.error ErrKind.invalidAlgorithm

/-- Steps 3-5 of `verify` after a signing key has been obtained: the
verifying decode, then `decoded.get("sub")` with the falsy check
`if not user_id` (lines 53-57). -/
def finishV (now : Int) (key : JWK) (i : String) (d : TokenData) :
    Except ErrKind String :=
  match decodeVerified now key i d with
  | Except.error k => Except.error k
  | Except.ok p =>
    match p.sub with
    | none => Except.error ErrKind.missingSubject
    | some s => if s = "" then Except.error ErrKind.missingSubject else Except.ok s

/-- The `except` handler at lines 35-42: delete the issuer's cache entry,
construct and insert a fresh client, and call `get_signing_key_from_jwt`
once more; a second failure propagates.  `n1` is the fetch count of the
failed first attempt.  The fresh client (with whatever it cached during the
retry) stays in the dict either way, because line 40 inserts it before the
call at line 42. -/
def retryPath (net : Net) (now : Int) (st1 : Cache) (d : TokenData) (i : String)
    (n1 : Nat) : Except ErrKind String × Cache × Nat :=
  match attemptKey net (freshClient i) d.kid with
  | (c2, n2, Except.ok key) =>
    (finishV now key i d, setC (delC i st1) i c2, n1 + n2)
  | (c2, n2, Except.error e2) =>
    (Except.error e2, setC (delC i st1) i c2, n1 + n2)

/-- Steps 3-5 of `verify` from line 32 on, given the dict state `st1` after
lines 26-28 and the client `c0` read at line 30: attempt key selection on
`c0`, on failure run the clear-and-retry handler, then verify and extract
the subject. -/
def afterClient (net : Net) (now : Int) (st1 : Cache) (c0 : JWKClient)
    (d : TokenData) (i : String) : Except ErrKind String × Cache × Nat :=
  match attemptKey net c0 d.kid with
  | (c1, n1, Except.ok key) => (finishV now key i d, setC st1 i c1, n1)
  | (_, n1, Except.error _) => retryPath net now st1 d i n1

/-- Steps 2-5 of `verify` once a non-empty issuer has been extracted:
ensure a client exists for the issuer (lines 26-28), read it back
(line 30), and continue with `afterClient`. -/
def verifyWithIssuer (net : Net) (now : Int) (st : Cache) (d : TokenData)
    (i : String) : Except ErrKind String × Cache × Nat :=
  let st1 : Cache :=
    match lookupC i st with
    | some _ => st
    | none => setC st i (freshClient i)
  afterClient net now st1 ((lookupC i st1).getD (freshClient i)) d i

/-- `VerifyToken.verify` up to the final exception-to-HTTP mapping: the
unverified decode and `iss` extraction with the falsy check `if not issuer`
(lines 19-23), then `verifyWithIssuer`.  Returns the outcome, the final
`_jwk_clients` state, and the number of network fetches performed. -/
def verifyCore (net : Net) (now : Int) (st : Cache) (t : Token) :
    Except ErrKind String × Cache × Nat :=
  match t with
  | Token.malformed => (Except.error ErrKind.malformedToken, st, 0)
  | Token.wf d =>
    match d.payload.iss with
    | none => (Except.error ErrKind.missingIssuer, st, 0)
    | some i =>
      if i = "" then (Except.error ErrKind.missingIssuer, st, 0)
      else verifyWithIssuer net now st d i

/-- Which internal failures reach the `except jwt.PyJWTError` handler
(line 59) rather than the generic `except Exception` handler (line 66):
all except the two raised as plain `Exception`s. -/
def isPyJWTErr : ErrKind → Bool
  | ErrKind.missingIssuer => false
  | ErrKind.missingSubject => false
  | _ => true

/-- An HTTP error response as built by the two handlers: status code and
`detail` body (both handlers attach the same `WWW-Authenticate: Bearer`
header, so it is not modelled). -/
structure HttpError where
  statusCode : Nat
  detail : String
deriving DecidableEq

/-- The exception handlers at lines 59-72: `jwt.PyJWTError` maps to 401
with body `"Could not validate credentials"`; any other exception maps to
401 with body `"Authentication failed: " + type(e).__name__`, which for
both plain-`Exception` raise sites in `verify` is
`"Authentication failed: Exception"`. -/
def toHttp (k : ErrKind) : HttpError :=
  if isPyJWTErr k then ⟨401, "Could not validate credentials"⟩
  else ⟨401, "Authentication failed: Exception"⟩

/-- Map the error of an `Except` result. -/
def mapErr (f : ErrKind → HttpError) :
    Except ErrKind String → Except HttpError String
  | Except.ok s => Except.ok s
  | Except.error k => Except.error (f k)

/-- The full `VerifyToken.verify`: `verifyCore` with every failure mapped
to its externally visible HTTP error. -/
def verify (net : Net) (now : Int) (st : Cache) (t : Token) :
    Except HttpError String × Cache × Nat :=
  let r := verifyCore net now st t
  (mapErr toHttp r.1, r.2)

/-- A key set contains a key usable for the given token: matching `kid`
and matching signature material. -/
def hasMatch (s : List JWK) (d : TokenData) : Prop :=
  ∃ j ∈ s, d.kid = some j.kid ∧ d.sigKey = j.material

instance (s : List JWK) (d : TokenData) : Decidable (hasMatch s d) := by
  unfold hasMatch; infer_instance

deriving instance DecidableEq for Except

/-- Example issuer URL (spec §8's concrete scenarios). -/
def exIss : String := "https://idp.example/org1"

/-- The example issuer's discovery URL. -/
def exUrl : String := jwksUrl exIss

/-- The example issuer's pre-rotation key, id `K1`. -/
def exKeyOld : JWK := ⟨"K1", 5⟩

/-- The example issuer's post-rotation key, same id `K1`, new material. -/
def exKeyNew : JWK := ⟨"K1", 7⟩

/-- A key with a different id `K0`, for kid-miss scenarios. -/
def exKeyMis : JWK := ⟨"K0", 5⟩

/-- Claims of the example token: issuer `exIss`, subject `user_42`,
expiry 100, no audience. -/
def exPayload : TokenPayload := ⟨some exIss, some "user_42", some 100, none⟩

/-- The example token: kid `K1`, `RS256`, signed with material 7
(`exKeyNew`). -/
def exToken : TokenData := ⟨some "K1", "RS256", exPayload, 7⟩

/-- A structurally parseable token lacking the `iss` claim. -/
def tokNoIss : TokenData := ⟨some "K1", "RS256", ⟨none, some "user_42", some 100, none⟩, 7⟩

/-- Spec §8's `T3`: identical to the example token but expired. -/
def exTokenExp : TokenData :=
  ⟨some "K1", "RS256", ⟨some exIss, some "user_42", some (-5), none⟩, 7⟩

/-- A token identical to the example token but declaring `HS256`. -/
def exTokenHS : TokenData := ⟨some "K1", "HS256", exPayload, 7⟩

/-- Network serving the post-rotation key set at the example issuer. -/
def exNet : Net := fun u => if u = exUrl then some [exKeyNew] else none

/-- Network serving the pre-rotation key set at the example issuer. -/
def exNetOld : Net := fun u => if u = exUrl then some [exKeyOld] else none

/-- Unreachable network: every fetch fails. -/
def exNetDown : Net := fun _ => none

/-- Cache holding a stale client for the example issuer: key id `K1` but
pre-rotation material. -/
def exStale : Cache := [(exIss, ⟨exUrl, some [exKeyOld]⟩)]

/-- Cache holding a stale client whose key set lacks the token's kid. -/
def exStaleKid : Cache := [(exIss, ⟨exUrl, some [exKeyMis]⟩)]

/-- Cache holding the current (post-rotation) key set for the example
issuer. -/
def exFresh : Cache := [(exIss, ⟨exUrl, some [exKeyNew]⟩)]

/-! ### Basic lemmas about the cache and the key-selection helpers -/

theorem lookupC_setC_self (st : Cache) (i : String) (c : JWKClient) :
    lookupC i (setC st i c) = some c := by
  induction st with
  | nil => simp [setC, lookupC]
  | cons hd tl ih =>
    obtain ⟨j, d⟩ := hd
    by_cases h : j = i
    · simp [setC, h, lookupC]
    · simp [setC, h, lookupC, ih]

theorem findKey_error (s : List JWK) (kid : Option String) (k : ErrKind)
    (h : findKey s kid = Except.error k) : k = ErrKind.keyNotFound := by
  unfold findKey at h
  cases kid with
  | none =>
    injection h with h2
    exact h2.symm
  | some kk =>
    dsimp only at h
    cases hf : s.find? (fun j => j.kid == kk) with
    | some j => rw [hf] at h; cases h
    | none => rw [hf] at h; injection h with h2; exact h2.symm

theorem findKey_ok_inv (s : List JWK) (kid : Option String) (j : JWK)
    (h : findKey s kid = Except.ok j) : j ∈ s ∧ kid = some j.kid := by
  unfold findKey at h
  cases kid with
  | none => cases h
  | some kk =>
    dsimp only at h
    cases hf : s.find? (fun j => j.kid == kk) with
    | some j0 =>
      rw [hf] at h
      injection h with h2
      subst h2
      refine ⟨List.mem_of_find?_eq_some hf, ?_⟩
      have hb := List.find?_some hf
      simp only [beq_iff_eq] at hb
      rw [hb]
    | none => rw [hf] at h; cases h

theorem decodeVerified_ok_inv (now : Int) (key : JWK) (i : String) (d : TokenData)
    (p : TokenPayload) (h : decodeVerified now key i d = Except.ok p) :
    d.alg = "RS256" ∧ d.sigKey = key.material ∧ expiredAt now d.payload = false ∧
    d.payload.iss = some i ∧ p = d.payload := by
  unfold decodeVerified at h
  by_cases h1 : d.alg = "RS256"
  · rw [if_pos h1] at h
    cases h2 : sigValid key d with
    | false => rw [h2] at h; simp at h
    | true =>
      rw [h2] at h
      simp only [if_true] at h
      cases h3 : expiredAt now d.payload with
      | true => rw [h3] at h; simp at h
      | false =>
        rw [h3] at h
        simp only [Bool.false_eq_true, if_false] at h
        by_cases h4 : d.payload.iss = some i
        · rw [if_pos h4] at h
          injection h with h5
          have hm : d.sigKey = key.material := by
            have hv := h2
            unfold sigValid at hv
            exact beq_iff_eq.mp hv
          exact ⟨h1, hm, rfl, h4, h5.symm⟩
        · rw [if_neg h4] at h; cases h
  · rw [if_neg h1] at h; cases h

theorem decodeVerified_error_kinds (now : Int) (key : JWK) (i : String)
    (d : TokenData) (k : ErrKind)
    (h : decodeVerified now key i d = Except.error k) :
    k = ErrKind.invalidAlgorithm ∨ k = ErrKind.invalidSignature ∨
    k = ErrKind.expired ∨ k = ErrKind.issuerMismatch := by
  unfold decodeVerified at h
  by_cases h1 : d.alg = "RS256"
  · rw [if_pos h1] at h
    cases h2 : sigValid key d with
    | false =>
      rw [h2] at h
      simp only [Bool.false_eq_true, if_false] at h
      injection h with h5
      exact Or.inr (Or.inl h5.symm)
    | true =>
      rw [h2] at h
      simp only [if_true] at h
      cases h3 : expiredAt now d.payload with
      | true =>
        rw [h3] at h
        simp only [if_true] at h
        injection h with h5
        exact Or.inr (Or.inr (Or.inl h5.symm))
      | false =>
        rw [h3] at h
        simp only [Bool.false_eq_true, if_false] at h
        by_cases h4 : d.payload.iss = some i
        · rw [if_pos h4] at h; cases h
        · rw [if_neg h4] at h
          injection h with h5
          exact Or.inr (Or.inr (Or.inr h5.symm))
  · rw [if_neg h1] at h
    injection h with h5
    exact Or.inl h5.symm

theorem finishV_ok_inv (now : Int) (key : JWK) (i : String) (d : TokenData)
    (s : String) (h : finishV now key i d = Except.ok s) :
    d.alg = "RS256" ∧ d.sigKey = key.material ∧ expiredAt now d.payload = false ∧
    d.payload.iss = some i ∧ d.payload.sub = some s ∧ s ≠ "" := by
  unfold finishV at h
  cases hd : decodeVerified now key i d with
  | error k => rw [hd] at h; cases h
  | ok p =>
    rw [hd] at h
    dsimp only at h
    obtain ⟨h1, h2, h3, h4, h5⟩ := decodeVerified_ok_inv now key i d p hd
    subst h5
    cases hsub : d.payload.sub with
    | none => rw [hsub] at h; cases h
    | some s0 =>
      rw [hsub] at h
      dsimp only at h
      by_cases h6 : s0 = ""
      · rw [if_pos h6] at h; cases h
      · rw [if_neg h6] at h
        injection h with h7
        subst h7
        exact ⟨h1, h2, h3, h4, rfl, h6⟩

theorem finishV_error_kinds (now : Int) (key : JWK) (i : String) (d : TokenData)
    (k : ErrKind) (h : finishV now key i d = Except.error k) :
    k ≠ ErrKind.fetchFailed ∧ k ≠ ErrKind.keyNotFound ∧
    k ≠ ErrKind.malformedToken ∧ k ≠ ErrKind.missingIssuer := by
  unfold finishV at h
  cases hd : decodeVerified now key i d with
  | error k0 =>
    rw [hd] at h
    injection h with h5
    subst h5
    rcases decodeVerified_error_kinds now key i d k0 hd with h6 | h6 | h6 | h6 <;>
      subst h6 <;> exact ⟨by simp, by simp, by simp, by simp⟩
  | ok p =>
    rw [hd] at h
    dsimp only at h
    cases hsub : p.sub with
    | none =>
      rw [hsub] at h
      injection h with h5
      subst h5
      exact ⟨by simp, by simp, by simp, by simp⟩
    | some s0 =>
      rw [hsub] at h
      dsimp only at h
      by_cases h6 : s0 = ""
      · rw [if_pos h6] at h
        injection h with h5
        subst h5
        exact ⟨by simp, by simp, by simp, by simp⟩
      · rw [if_neg h6] at h; cases h

theorem attemptKey_ok_inv (net : Net) (c : JWKClient) (kid : Option String)
    (c' : JWKClient) (n : Nat) (j : JWK)
    (h : attemptKey net c kid = (c', n, Except.ok j)) :
    (∃ s, c.cached = some s ∧ findKey s kid = Except.ok j) ∨
    (∃ s, net c.url = some s ∧ findKey s kid = Except.ok j) := by
  unfold attemptKey at h
  cases hc : c.cached with
  | some s =>
    rw [hc] at h
    dsimp only at h
    by_cases hs : s = []
    · rw [if_pos hs] at h
      simp at h
    · rw [if_neg hs] at h
      cases hf : findKey s kid with
      | ok j0 =>
        rw [hf] at h
        simp only [Prod.mk.injEq] at h
        obtain ⟨-, -, h3⟩ := h
        injection h3 with h3
        subst h3
        exact Or.inl ⟨s, rfl, hf⟩
      | error e =>
        rw [hf] at h
        dsimp only at h
        cases hn : net c.url with
        | none =>
          rw [hn] at h
          simp at h
        | some s2 =>
          rw [hn] at h
          dsimp only at h
          by_cases hs2 : s2 = []
          · rw [if_pos hs2] at h
            simp at h
          · rw [if_neg hs2] at h
            simp only [Prod.mk.injEq] at h
            exact Or.inr ⟨s2, rfl, h.2.2⟩
  | none =>
    rw [hc] at h
    cases hn : net c.url with
    | none =>
      rw [hn] at h
      simp at h
    | some s =>
      rw [hn] at h
      dsimp only at h
      by_cases hs : s = []
      · rw [if_pos hs] at h
        simp at h
      · rw [if_neg hs] at h
        cases hf : findKey s kid with
        | ok j0 =>
          rw [hf] at h
          simp only [Prod.mk.injEq] at h
          obtain ⟨-, -, h3⟩ := h
          injection h3 with h3
          subst h3
          exact Or.inr ⟨s, rfl, hf⟩
        | error e =>
          rw [hf] at h
          dsimp only at h
          rw [if_neg hs] at h
          simp at h

theorem attemptKey_fetches_le (net : Net) (c : JWKClient) (kid : Option String) :
    (attemptKey net c kid).2.1 ≤ 2 := by
  unfold attemptKey
  cases c.cached with
  | some s =>
    dsimp only
    by_cases hs : s = []
    · rw [if_pos hs]
      simp
    · rw [if_neg hs]
      cases findKey s kid with
      | ok j => simp
      | error e =>
        dsimp only
        cases net c.url with
        | none => simp
        | some s2 =>
          dsimp only
          by_cases hs2 : s2 = []
          · rw [if_pos hs2]; simp
          · rw [if_neg hs2]; simp
  | none =>
    cases net c.url with
    | none => simp
    | some s =>
      dsimp only
      by_cases hs : s = []
      · rw [if_pos hs]; simp
      · rw [if_neg hs]
        cases findKey s kid with
        | ok j => simp
        | error e => simp [hs]

theorem attemptKey_fetchFailed (net : Net) (c : JWKClient) (kid : Option String)
    (c' : JWKClient) (n : Nat)
    (h : attemptKey net c kid = (c', n, Except.error ErrKind.fetchFailed)) :
    c'.url = c.url ∧ c'.cached = none ∧ net c.url = none := by
  unfold attemptKey at h
  cases hc : c.cached with
  | some s =>
    rw [hc] at h
    dsimp only at h
    by_cases hs : s = []
    · rw [if_pos hs] at h
      simp at h
    · rw [if_neg hs] at h
      cases hf : findKey s kid with
      | ok j0 =>
        rw [hf] at h
        simp at h
      | error e =>
        rw [hf] at h
        dsimp only at h
        cases hn : net c.url with
        | none =>
          rw [hn] at h
          simp only [Prod.mk.injEq] at h
          obtain ⟨h1, -, -⟩ := h
          subst h1
          exact ⟨rfl, rfl, rfl⟩
        | some s2 =>
          rw [hn] at h
          dsimp only at h
          by_cases hs2 : s2 = []
          · rw [if_pos hs2] at h
            simp at h
          · rw [if_neg hs2] at h
            simp only [Prod.mk.injEq] at h
            have := findKey_error s2 kid ErrKind.fetchFailed h.2.2
            cases this
  | none =>
    rw [hc] at h
    cases hn : net c.url with
    | none =>
      rw [hn] at h
      simp only [Prod.mk.injEq] at h
      obtain ⟨h1, -, -⟩ := h
      subst h1
      exact ⟨rfl, hc, rfl⟩
    | some s =>
      rw [hn] at h
      dsimp only at h
      by_cases hs : s = []
      · rw [if_pos hs] at h
        simp at h
      · rw [if_neg hs] at h
        cases hf : findKey s kid with
        | ok j0 =>
          rw [hf] at h
          simp at h
        | error e =>
          rw [hf] at h
          dsimp only at h
          rw [if_neg hs] at h
          simp only [Prod.mk.injEq, Except.error.injEq] at h
          obtain ⟨-, -, he⟩ := h
          subst he
          have := findKey_error s kid ErrKind.fetchFailed hf
          cases this

/-! ### Inversion lemmas for the verification flow -/

theorem retryPath_ok_inv (net : Net) (now : Int) (st1 : Cache) (d : TokenData)
    (i : String) (n1 : Nat) (s : String)
    (h : (retryPath net now st1 d i n1).1 = Except.ok s) :
    ∃ key kset, net (jwksUrl i) = some kset ∧
      findKey kset d.kid = Except.ok key ∧ finishV now key i d = Except.ok s := by
  unfold retryPath at h
  rcases hB : attemptKey net (freshClient i) d.kid with ⟨c2, n2, r2⟩
  rw [hB] at h
  cases r2 with
  | ok key =>
    dsimp only at h
    rcases attemptKey_ok_inv net (freshClient i) d.kid c2 n2 key hB with
      ⟨ks, hk1, hk2⟩ | ⟨ks, hk1, hk2⟩
    · simp [freshClient] at hk1
    · exact ⟨key, ks, by simpa [freshClient] using hk1, hk2, h⟩
  | error e2 => dsimp only at h; cases h

theorem retryPath_fetchFailed (net : Net) (now : Int) (st1 : Cache)
    (d : TokenData) (i : String) (n1 : Nat) (st' : Cache) (n : Nat)
    (h : retryPath net now st1 d i n1 = (Except.error ErrKind.fetchFailed, st', n)) :
    st' = setC (delC i st1) i (freshClient i) ∧ net (jwksUrl i) = none := by
  unfold retryPath at h
  rcases hB : attemptKey net (freshClient i) d.kid with ⟨c2, n2, r2⟩
  rw [hB] at h
  cases r2 with
  | ok key =>
    dsimp only at h
    simp only [Prod.mk.injEq] at h
    exact absurd rfl (finishV_error_kinds now key i d ErrKind.fetchFailed h.1).1
  | error e2 =>
    dsimp only at h
    simp only [Prod.mk.injEq, Except.error.injEq] at h
    obtain ⟨he, hst, -⟩ := h
    subst he
    obtain ⟨hurl, hcach, hn⟩ := attemptKey_fetchFailed net (freshClient i) d.kid c2 n2 hB
    obtain ⟨u, cc⟩ := c2
    simp only [freshClient] at hurl hcach hn
    subst hurl
    subst hcach
    exact ⟨hst.symm, hn⟩

theorem retryPath_error_state (net : Net) (now : Int) (st1 : Cache)
    (d : TokenData) (i : String) (n1 : Nat) (e : ErrKind) (st' : Cache) (n : Nat)
    (h : retryPath net now st1 d i n1 = (Except.error e, st', n)) :
    ∃ c2, st' = setC (delC i st1) i c2 := by
  unfold retryPath at h
  rcases hB : attemptKey net (freshClient i) d.kid with ⟨c2, n2, r2⟩
  rw [hB] at h
  cases r2 with
  | ok key =>
    dsimp only at h
    simp only [Prod.mk.injEq] at h
    exact ⟨c2, h.2.1.symm⟩
  | error e2 =>
    dsimp only at h
    simp only [Prod.mk.injEq] at h
    exact ⟨c2, h.2.1.symm⟩

theorem afterClient_ok_inv (net : Net) (now : Int) (st1 : Cache)
    (c0 : JWKClient) (d : TokenData) (i : String) (s : String)
    (h : (afterClient net now st1 c0 d i).1 = Except.ok s) :
    ∃ key, finishV now key i d = Except.ok s ∧
      ((∃ kset, c0.cached = some kset ∧ findKey kset d.kid = Except.ok key) ∨
       (∃ kset, net c0.url = some kset ∧
         findKey kset d.kid = Except.ok key) ∨
       (∃ kset, net (jwksUrl i) = some kset ∧
         findKey kset d.kid = Except.ok key)) := by
  unfold afterClient at h
  rcases hA : attemptKey net c0 d.kid with ⟨c1, n1, r1⟩
  rw [hA] at h
  cases r1 with
  | ok key =>
    dsimp only at h
    rcases attemptKey_ok_inv net c0 d.kid c1 n1 key hA with
      ⟨ks, hk1, hk2⟩ | ⟨ks, hk1, hk2⟩
    · exact ⟨key, h, Or.inl ⟨ks, hk1, hk2⟩⟩
    · exact ⟨key, h, Or.inr (Or.inl ⟨ks, hk1, hk2⟩)⟩
  | error e1 =>
    dsimp only at h
    obtain ⟨key, ks, hn, hf, hfin⟩ := retryPath_ok_inv net now st1 d i n1 s h
    exact ⟨key, hfin, Or.inr (Or.inr ⟨ks, hn, hf⟩)⟩

theorem verifyCore_ok_inv (net : Net) (now : Int) (st : Cache) (t : Token)
    (s : String) (h : (verifyCore net now st t).1 = Except.ok s) :
    ∃ d i j, t = Token.wf d ∧ d.payload.iss = some i ∧ ¬ i = "" ∧
      d.alg = "RS256" ∧ d.sigKey = j.material ∧
      expiredAt now d.payload = false ∧ d.payload.sub = some s ∧ s ≠ "" ∧
      ((∃ c, lookupC i st = some c ∧
          ((∃ kset, c.cached = some kset ∧ findKey kset d.kid = Except.ok j) ∨
           (∃ kset, net c.url = some kset ∧
             findKey kset d.kid = Except.ok j))) ∨
       (∃ kset, net (jwksUrl i) = some kset ∧ findKey kset d.kid = Except.ok j)) := by
  cases t with
  | malformed => simp [verifyCore] at h
  | wf d =>
    unfold verifyCore at h
    dsimp only at h
    cases hiss : d.payload.iss with
    | none => rw [hiss] at h; cases h
    | some i =>
      rw [hiss] at h
      dsimp only at h
      by_cases hi : i = ""
      · rw [if_pos hi] at h; cases h
      · rw [if_neg hi] at h
        unfold verifyWithIssuer at h
        dsimp only at h
        cases hlk : lookupC i st with
        | some c =>
          rw [hlk] at h
          dsimp only [Option.getD] at h
          rw [hlk] at h
          dsimp only at h
          obtain ⟨key, hfin, hsrc⟩ := afterClient_ok_inv net now st c d i s h
          obtain ⟨f1, f2, f3, f4, f5, f6⟩ := finishV_ok_inv now key i d s hfin
          refine ⟨d, i, key, rfl, hiss, hi, f1, f2, f3, f5, f6, ?_⟩
          rcases hsrc with hs1 | hs1 | hs1
          · exact Or.inl ⟨c, hlk, Or.inl hs1⟩
          · exact Or.inl ⟨c, hlk, Or.inr hs1⟩
          · exact Or.inr hs1
        | none =>
          rw [hlk] at h
          dsimp only at h
          rw [lookupC_setC_self] at h
          dsimp only [Option.getD] at h
          obtain ⟨key, hfin, hsrc⟩ := afterClient_ok_inv net now
            (setC st i (freshClient i)) (freshClient i) d i s h
          obtain ⟨f1, f2, f3, f4, f5, f6⟩ := finishV_ok_inv now key i d s hfin
          refine ⟨d, i, key, rfl, hiss, hi, f1, f2, f3, f5, f6, ?_⟩
          rcases hsrc with ⟨ks, hk1, hk2⟩ | ⟨ks, hk1, hk2⟩ | hs1
          · simp [freshClient] at hk1
          · exact Or.inr ⟨ks, by simpa [freshClient] using hk1, hk2⟩
          · exact Or.inr hs1

/-! ### Fetch-count bound -/

theorem retryPath_fetches_le (net : Net) (now : Int) (st1 : Cache)
    (d : TokenData) (i : String) (n1 : Nat) :
    (retryPath net now st1 d i n1).2.2 ≤ n1 + 2 := by
  unfold retryPath
  rcases hB : attemptKey net (freshClient i) d.kid with ⟨c2, n2, r2⟩
  have hn2 : n2 ≤ 2 := by
    have hl := attemptKey_fetches_le net (freshClient i) d.kid
    rw [hB] at hl
    exact hl
  cases r2 <;> simpa using Nat.add_le_add_left hn2 n1

theorem afterClient_fetches_le_four (net : Net) (now : Int) (st1 : Cache)
    (c0 : JWKClient) (d : TokenData) (i : String) :
    (afterClient net now st1 c0 d i).2.2 ≤ 4 := by
  unfold afterClient
  rcases hA : attemptKey net c0 d.kid with ⟨c1, n1, r1⟩
  have hn1 : n1 ≤ 2 := by
    have hl := attemptKey_fetches_le net c0 d.kid
    rw [hA] at hl
    exact hl
  cases r1 with
  | ok key =>
    dsimp only
    omega
  | error e1 =>
    dsimp only
    have hr := retryPath_fetches_le net now st1 d i n1
    omega

theorem verifyCore_fetches_le_four (net : Net) (now : Int) (st : Cache)
    (t : Token) : (verifyCore net now st t).2.2 ≤ 4 := by
  cases t with
  | malformed => simp [verifyCore]
  | wf d =>
    unfold verifyCore
    dsimp only
    cases hiss : d.payload.iss with
    | none => simp
    | some i =>
      dsimp only
      by_cases hi : i = ""
      · rw [if_pos hi]; simp
      · rw [if_neg hi]
        unfold verifyWithIssuer
        exact afterClient_fetches_le_four net now _ _ d i

/-! ### Final cache state after a failed fetch -/

theorem afterClient_fetchFailed (net : Net) (now : Int) (st1 : Cache)
    (c0 : JWKClient) (d : TokenData) (i : String) (st' : Cache) (n : Nat)
    (h : afterClient net now st1 c0 d i =
      (Except.error ErrKind.fetchFailed, st', n)) :
    st' = setC (delC i st1) i (freshClient i) ∧ net (jwksUrl i) = none := by
  unfold afterClient at h
  rcases hA : attemptKey net c0 d.kid with ⟨c1, n1, r1⟩
  rw [hA] at h
  cases r1 with
  | ok key =>
    dsimp only at h
    simp only [Prod.mk.injEq] at h
    exact absurd rfl (finishV_error_kinds now key i d ErrKind.fetchFailed h.1).1
  | error e1 =>
    dsimp only at h
    exact retryPath_fetchFailed net now st1 d i n1 st' n h

theorem verifyCore_fetchFailed (net : Net) (now : Int) (st : Cache) (t : Token)
    (st' : Cache) (n : Nat)
    (h : verifyCore net now st t = (Except.error ErrKind.fetchFailed, st', n)) :
    ∃ d i, t = Token.wf d ∧ d.payload.iss = some i ∧
      lookupC i st' = some (freshClient i) ∧ net (jwksUrl i) = none := by
  cases t with
  | malformed => simp [verifyCore] at h
  | wf d =>
    unfold verifyCore at h
    dsimp only at h
    cases hiss : d.payload.iss with
    | none => rw [hiss] at h; simp at h
    | some i =>
      rw [hiss] at h
      dsimp only at h
      by_cases hi : i = ""
      · rw [if_pos hi] at h; simp at h
      · rw [if_neg hi] at h
        unfold verifyWithIssuer at h
        dsimp only at h
        obtain ⟨hst, hnet⟩ := afterClient_fetchFailed net now _ _ d i st' n h
        subst hst
        exact ⟨d, i, rfl, hiss, lookupC_setC_self _ _ _, hnet⟩

/-! ### The audience claim is never inspected -/

theorem sigValid_aud (key : JWK) (d : TokenData) (a : Option (List String)) :
    sigValid key { d with payload := { d.payload with aud := a } } =
      sigValid key d := rfl

theorem expiredAt_aud (now : Int) (p : TokenPayload) (a : Option (List String)) :
    expiredAt now { p with aud := a } = expiredAt now p := rfl

theorem finishV_aud (now : Int) (key : JWK) (i : String) (d : TokenData)
    (a : Option (List String)) :
    finishV now key i { d with payload := { d.payload with aud := a } } =
    finishV now key i d := by
  unfold finishV decodeVerified
  dsimp only
  rw [sigValid_aud, expiredAt_aud]
  by_cases h1 : d.alg = "RS256" <;>
    by_cases h2 : sigValid key d = true <;>
      by_cases h3 : expiredAt now d.payload = true <;>
        by_cases h4 : d.payload.iss = some i <;>
          simp [h1, h2, h3, h4]

theorem retryPath_aud (net : Net) (now : Int) (st1 : Cache) (d : TokenData)
    (i : String) (n1 : Nat) (a : Option (List String)) :
    retryPath net now st1 { d with payload := { d.payload with aud := a } } i n1 =
    retryPath net now st1 d i n1 := by
  unfold retryPath
  dsimp only
  rcases hB : attemptKey net (freshClient i) d.kid with ⟨c2, n2, r2⟩
  cases r2 with
  | ok key =>
    dsimp only
    rw [finishV_aud]
  | error e2 => rfl

theorem afterClient_aud (net : Net) (now : Int) (st1 : Cache) (c0 : JWKClient)
    (d : TokenData) (i : String) (a : Option (List String)) :
    afterClient net now st1 c0 { d with payload := { d.payload with aud := a } } i =
    afterClient net now st1 c0 d i := by
  unfold afterClient
  dsimp only
  rcases hA : attemptKey net c0 d.kid with ⟨c1, n1, r1⟩
  cases r1 with
  | ok key =>
    dsimp only
    rw [finishV_aud]
  | error e1 =>
    dsimp only
    rw [retryPath_aud]

theorem verifyCore_aud (net : Net) (now : Int) (st : Cache) (d : TokenData)
    (a : Option (List String)) :
    verifyCore net now st (Token.wf { d with payload := { d.payload with aud := a } }) =
    verifyCore net now st (Token.wf d) := by
  unfold verifyCore verifyWithIssuer
  dsimp only
  cases hiss : d.payload.iss with
  | none => rfl
  | some i =>
    dsimp only
    by_cases hi : i = ""
    · rw [if_pos hi, if_pos hi]
    · rw [if_neg hi, if_neg hi]
      rw [← hiss]
      exact afterClient_aud net now _ _ d i a

/-! ### Direct computation helpers -/

theorem finishV_ok (now : Int) (key : JWK) (i : String) (d : TokenData)
    (s : String) (halg : d.alg = "RS256") (hsig : d.sigKey = key.material)
    (hexp : expiredAt now d.payload = false) (hiss : d.payload.iss = some i)
    (hsub : d.payload.sub = some s) (hs : s ≠ "") :
    finishV now key i d = Except.ok s := by
  unfold finishV decodeVerified
  have hv : sigValid key d = true := by
    unfold sigValid
    rw [hsig]
    exact beq_self_eq_true _
  rw [halg, hv, hexp, hiss]
  simp [hsub, hs]

theorem verifyCore_cached_hit (net : Net) (now : Int) (st : Cache)
    (d : TokenData) (i : String) (c : JWKClient) (kset : List JWK) (j : JWK)
    (hiss : d.payload.iss = some i) (hi : i ≠ "")
    (hc : lookupC i st = some c) (hck : c.cached = some kset)
    (hk : findKey kset d.kid = Except.ok j) :
    verifyCore net now st (Token.wf d) = (finishV now j i d, setC st i c, 0) := by
  unfold verifyCore
  dsimp only
  rw [hiss]
  dsimp only
  rw [if_neg hi]
  unfold verifyWithIssuer
  dsimp only
  rw [hc]
  dsimp only
  rw [hc]
  dsimp only [Option.getD]
  unfold afterClient
  have hA : attemptKey net c d.kid = (c, 0, Except.ok j) := by
    have hne : kset ≠ [] := by
      intro he
      obtain ⟨hmem, -⟩ := findKey_ok_inv kset d.kid j hk
      rw [he] at hmem
      cases hmem
    unfold attemptKey
    rw [hck]
    dsimp only
    rw [if_neg hne, hk]
  rw [hA]

theorem verifyCore_cached_refresh (net : Net) (now : Int) (st : Cache)
    (d : TokenData) (i : String) (c : JWKClient) (kset kset2 : List JWK)
    (j : JWK)
    (hiss : d.payload.iss = some i) (hi : i ≠ "")
    (hc : lookupC i st = some c) (hck : c.cached = some kset)
    (hne : kset ≠ [])
    (hmiss : findKey kset d.kid = Except.error ErrKind.keyNotFound)
    (hnet : net c.url = some kset2) (hne2 : kset2 ≠ [])
    (hk2 : findKey kset2 d.kid = Except.ok j) :
    verifyCore net now st (Token.wf d) =
      (finishV now j i d, setC st i { c with cached := some kset2 }, 1) := by
  unfold verifyCore
  dsimp only
  rw [hiss]
  dsimp only
  rw [if_neg hi]
  unfold verifyWithIssuer
  dsimp only
  rw [hc]
  dsimp only
  rw [hc]
  dsimp only [Option.getD]
  unfold afterClient
  have hA : attemptKey net c d.kid =
      ({ c with cached := some kset2 }, 1, Except.ok j) := by
    unfold attemptKey
    rw [hck]
    dsimp only
    rw [if_neg hne, hmiss]
    dsimp only
    rw [hnet]
    dsimp only
    rw [if_neg hne2, hk2]
  rw [hA]

theorem verify_error_eq_toHttp (net : Net) (now : Int) (st : Cache) (t : Token)
    (e : HttpError) (h : (verify net now st t).1 = Except.error e) :
    ∃ k, (verifyCore net now st t).1 = Except.error k ∧ e = toHttp k := by
  unfold verify at h
  dsimp only at h
  cases hr : (verifyCore net now st t).1 with
  | ok s => rw [hr] at h; simp [mapErr] at h
  | error k =>
    rw [hr] at h
    simp only [mapErr] at h
    injection h with h2
    exact ⟨k, rfl, h2.symm⟩

theorem toHttp_statusCode (k : ErrKind) : (toHttp k).statusCode = 401 := by
  unfold toHttp
  by_cases hp : isPyJWTErr k = true
  · rw [if_pos hp]
  · rw [if_neg hp]

theorem toHttp_detail (k : ErrKind) :
    (toHttp k).detail = "Could not validate credentials" ∨
    (toHttp k).detail = "Authentication failed: Exception" := by
  unfold toHttp
  by_cases hp : isPyJWTErr k = true
  · rw [if_pos hp]; exact Or.inl rfl
  · rw [if_neg hp]; exact Or.inr rfl

/-! ### The claims -/

/-- Claim C1: for every token that structurally parses, carries a
(non-empty) issuer claim, whose header `kid` names a key present in that
issuer's (cached) key set, whose signature verifies under that key (RS256
with matching material), whose expiry has not elapsed, whose issuer claim
matches the issuer used for key lookup (automatic: lookup uses the token's
own `iss`), and which carries a non-empty subject claim, `verify` succeeds
and returns exactly the subject claim string as the principal. -/
theorem C1_valid_cached_token_returns_subject (net : Net) (now : Int)
    (st : Cache) (d : TokenData) (i : String) (c : JWKClient)
    (kset : List JWK) (j : JWK) (s : String)
    (hiss : d.payload.iss = some i) (hi : i ≠ "")
    (hc : lookupC i st = some c) (hck : c.cached = some kset)
    (hk : findKey kset d.kid = Except.ok j)
    (halg : d.alg = "RS256") (hsig : d.sigKey = j.material)
    (hexp : expiredAt now d.payload = false)
    (hsub : d.payload.sub = some s) (hs : s ≠ "") :
    (verify net now st (Token.wf d)).1 = Except.ok s := by
  unfold verify
  dsimp only
  rw [verifyCore_cached_hit net now st d i c kset j hiss hi hc hck hk]
  dsimp only
  rw [finishV_ok now j i d s halg hsig hexp hiss hsub hs]
  rfl

/-- Witness for C1: spec §8's concrete scenario `T1` with the key already
cached: issuer `https://idp.example/org1`, kid `K1`, subject `user_42`. -/
theorem C1_witness :
    (verify exNet 0 exFresh (Token.wf exToken)).1 = Except.ok "user_42" :=
  C1_valid_cached_token_returns_subject exNet 0 exFresh exToken exIss
    ⟨exUrl, some [exKeyNew]⟩ [exKeyNew] exKeyNew "user_42"
    (by decide) (by decide) (by decide) (by decide) (by decide) (by decide)
    (by decide) (by decide) (by decide) (by decide)

/-- Claim C2 counterexample: the claim asserts the invalidate-and-retry is
triggered when signature verification fails against a cached key set.  It
is not: the `try/except` at auth.py lines 32-42 wraps only
`get_signing_key_from_jwt`, so with a stale cached key (same kid `K1`,
rotated material) and the network serving the matching key, `verify`
fails with a signature error after zero fetches — no internal refresh, no
cache invalidation, no fresh fetch, no retry — even though a fresh verify
from an empty cache succeeds with one fetch. -/
theorem C2_counterexample :
    verifyCore exNet 0 exStale (Token.wf exToken) =
      (Except.error ErrKind.invalidSignature, exStale, 0) ∧
    verifyCore exNet 0 [] (Token.wf exToken) =
      (Except.ok "user_42", [(exIss, ⟨exUrl, some [exKeyNew]⟩)], 1) :=
  ⟨by decide, by decide⟩

/-- Claim C2 (amended): within a single `verify` call, a kid absent from
the cached key set is first resolved by the PyJWK client's internal
refresh — one extra fetch, the cache entry updated in place, with no
cache-entry deletion and no app-level retry (the rotation scenario
succeeds with exactly one fetch).  Only when key selection fails outright
(kid still absent after the refresh, an empty key set, or a fetch
failure) does the verifier delete the issuer's entry, create a fresh
client, and retry key selection and verification exactly once; one
`verify` call therefore performs at most four key-set fetches (at most
two per key-selection attempt).  Signature-verification failure triggers
neither the refresh nor the retry. -/
theorem C2_amended_internal_refresh_and_bounded_retry (net : Net) (now : Int)
    (st : Cache) (d : TokenData) (i : String) (c : JWKClient)
    (kset kset2 : List JWK) (j : JWK) (s : String)
    (hiss : d.payload.iss = some i) (hi : i ≠ "")
    (hc : lookupC i st = some c) (hck : c.cached = some kset)
    (hne : kset ≠ [])
    (hmiss : findKey kset d.kid = Except.error ErrKind.keyNotFound)
    (hnet : net c.url = some kset2) (hne2 : kset2 ≠ [])
    (hk2 : findKey kset2 d.kid = Except.ok j)
    (halg : d.alg = "RS256") (hsig : d.sigKey = j.material)
    (hexp : expiredAt now d.payload = false)
    (hsub : d.payload.sub = some s) (hs : s ≠ "") :
    verifyCore net now st (Token.wf d) =
      (Except.ok s, setC st i { c with cached := some kset2 }, 1) ∧
    ∀ (net2 : Net) (now2 : Int) (st2 : Cache) (t2 : Token),
      (verifyCore net2 now2 st2 t2).2.2 ≤ 4 := by
  refine ⟨?_, fun net2 now2 st2 t2 => verifyCore_fetches_le_four net2 now2 st2 t2⟩
  rw [verifyCore_cached_refresh net now st d i c kset kset2 j hiss hi hc hck hne
    hmiss hnet hne2 hk2]
  rw [finishV_ok now j i d s halg hsig hexp hiss hsub hs]

/-- Witness for C2 (amended): spec §8's `T2` scenario — kid `K1` absent
from the stale cached set (which only has `K0`), present in the currently
served set; success via the client's internal refresh with exactly one
fetch and the cache entry updated in place (no deletion); plus the
four-fetch bound at a concrete call. -/
theorem C2_witness :
    verifyCore exNet 0 exStaleKid (Token.wf exToken) =
      (Except.ok "user_42",
        setC exStaleKid exIss ⟨exUrl, some [exKeyNew]⟩, 1) ∧
    (verifyCore exNetDown 0 [] (Token.wf exToken)).2.2 ≤ 4 := by
  have h := C2_amended_internal_refresh_and_bounded_retry exNet 0 exStaleKid
    exToken exIss ⟨exUrl, some [exKeyMis]⟩ [exKeyMis] [exKeyNew] exKeyNew
    "user_42" (by decide) (by decide) (by decide) (by decide) (by decide)
    (by decide) (by decide) (by decide) (by decide) (by decide) (by decide)
    (by decide) (by decide) (by decide)
  exact ⟨h.1, h.2 exNetDown 0 [] (Token.wf exToken)⟩

/-- Claim C3 counterexample: two tokens failing at different steps produce
different response bodies.  A structurally unparseable token raises a
`jwt.PyJWTError` and gets body `"Could not validate credentials"`; a
parseable token lacking the issuer claim raises a plain `Exception` and
gets body `"Authentication failed: Exception"`.  The response body does
reveal which class of verification step failed. -/
theorem C3_counterexample :
    (verify exNetDown 0 [] Token.malformed).1 =
      Except.error ⟨401, "Could not validate credentials"⟩ ∧
    (verify exNetDown 0 [] (Token.wf tokNoIss)).1 =
      Except.error ⟨401, "Authentication failed: Exception"⟩ ∧
    ("Could not validate credentials" : String) ≠
      "Authentication failed: Exception" :=
  ⟨by decide, by decide, by decide⟩

/-- Claim C3 (amended): every failure gets the same 401 status (and the
same `WWW-Authenticate` header), but the body is uniform only within each
of two classes: `PyJWTError`-class failures produce
`"Could not validate credentials"` while the plain-`Exception` raise sites
(missing issuer, missing subject) produce
`"Authentication failed: Exception"`; the body can therefore distinguish
these two classes, though not the individual step within a class. -/
theorem C3_amended_uniform_status_two_bodies (net : Net) (now : Int)
    (st : Cache) (t : Token) (e : HttpError)
    (h : (verify net now st t).1 = Except.error e) :
    e.statusCode = 401 ∧
    (e.detail = "Could not validate credentials" ∨
     e.detail = "Authentication failed: Exception") := by
  obtain ⟨k, -, he⟩ := verify_error_eq_toHttp net now st t e h
  subst he
  exact ⟨toHttp_statusCode k, toHttp_detail k⟩

/-- Witness for C3 (amended) at a malformed token. -/
theorem C3_witness :
    (⟨401, "Could not validate credentials"⟩ : HttpError).statusCode = 401 ∧
    ((⟨401, "Could not validate credentials"⟩ : HttpError).detail =
        "Could not validate credentials" ∨
     (⟨401, "Could not validate credentials"⟩ : HttpError).detail =
        "Authentication failed: Exception") :=
  C3_amended_uniform_status_two_bodies exNetDown 0 [] Token.malformed
    ⟨401, "Could not validate credentials"⟩ (by decide)

/-- Claim C4: every failure of `verify` — including fetch failures and
timeouts (`exNetDown`-style networks) and the plain-`Exception` raise
sites — surfaces as a single 401 unauthorized error, never as a 5xx server
error; `verify` is a total function, so no failure escapes the handlers or
is fatal beyond the one call. -/
theorem C4_failures_unauthorized_never_5xx (net : Net) (now : Int)
    (st : Cache) (t : Token) (e : HttpError)
    (h : (verify net now st t).1 = Except.error e) :
    e.statusCode = 401 ∧ ¬ 500 ≤ e.statusCode := by
  obtain ⟨k, -, he⟩ := verify_error_eq_toHttp net now st t e h
  subst he
  rw [toHttp_statusCode k]
  exact ⟨rfl, by norm_num⟩

/-- Witness for C4 at a fetch failure (unreachable network, empty cache). -/
theorem C4_witness :
    (⟨401, "Could not validate credentials"⟩ : HttpError).statusCode = 401 ∧
    ¬ 500 ≤ (⟨401, "Could not validate credentials"⟩ : HttpError).statusCode :=
  C4_failures_unauthorized_never_5xx exNetDown 0 [] (Token.wf exToken)
    ⟨401, "Could not validate credentials"⟩ (by decide)

/-- Claim C5 counterexample: with an empty cache and an unreachable
network, `verify` fails with a fetch error after two fetch attempts, yet
the issuer's cache entry is present afterwards — line 40 re-inserts a
fresh client before the retry call, so a failed fetch does not leave the
entry absent as the claim's state machine asserts. -/
theorem C5_counterexample :
    verifyCore exNetDown 0 [] (Token.wf exToken) =
      (Except.error ErrKind.fetchFailed, [(exIss, ⟨exUrl, none⟩)], 2) ∧
    lookupC exIss [(exIss, (⟨exUrl, none⟩ : JWKClient))] ≠ none :=
  ⟨by decide, by decide⟩

/-- Claim C5 (amended): when a fetch of an issuer's key set fails inside a
`verify` call, the cache afterwards holds a client for that issuer with
**no** fetched key set (the key-set level entry is absent, but the client
object itself remains present, contrary to the claimed `absent` state),
and the network error is surfaced as the generic 401 auth failure. -/
theorem C5_amended_failed_fetch_keyless_entry (net : Net) (now : Int)
    (st : Cache) (t : Token) (st' : Cache) (n : Nat)
    (h : verifyCore net now st t = (Except.error ErrKind.fetchFailed, st', n)) :
    (∀ (d : TokenData) (i : String), t = Token.wf d → d.payload.iss = some i →
      lookupC i st' = some ⟨jwksUrl i, none⟩ ∧ net (jwksUrl i) = none) ∧
    (verify net now st t).1 =
      Except.error ⟨401, "Could not validate credentials"⟩ := by
  constructor
  · intro d i ht hiss
    obtain ⟨d0, i0, ht0, hiss0, hlk, hn⟩ := verifyCore_fetchFailed net now st t st' n h
    rw [ht] at ht0
    injection ht0 with ht0
    subst ht0
    rw [hiss] at hiss0
    injection hiss0 with hiss0
    subst hiss0
    exact ⟨by simpa [freshClient] using hlk, hn⟩
  · unfold verify
    dsimp only
    rw [h]
    rfl

/-- Witness for C5 (amended): the unreachable-network scenario. -/
theorem C5_witness :
    lookupC exIss [(exIss, (⟨exUrl, none⟩ : JWKClient))] =
      some ⟨jwksUrl exIss, none⟩ ∧
    (verify exNetDown 0 [] (Token.wf exToken)).1 =
      Except.error ⟨401, "Could not validate credentials"⟩ := by
  have h := C5_amended_failed_fetch_keyless_entry exNetDown 0 []
    (Token.wf exToken) [(exIss, ⟨exUrl, none⟩)] 2 (by decide)
  exact ⟨(h.1 exToken exIss rfl (by decide)).1, h.2⟩

/-- Claim C6: a token whose claims segment cannot be parsed, or which
lacks an issuer claim (absent or falsy-empty), fails before any network
fetch (fetch count 0) and leaves the key-set cache exactly unchanged. -/
theorem C6_parse_failures_no_fetch_no_cache_change (net : Net) (now : Int)
    (st : Cache) (t : Token)
    (h : t = Token.malformed ∨
      ∃ d, t = Token.wf d ∧ (d.payload.iss = none ∨ d.payload.iss = some "")) :
    verifyCore net now st t =
      (Except.error (if t = Token.malformed then ErrKind.malformedToken
        else ErrKind.missingIssuer), st, 0) := by
  rcases h with h | ⟨d, hd, hiss⟩
  · subst h
    rw [if_pos rfl]
    rfl
  · subst hd
    rw [if_neg (by simp)]
    rcases hiss with hiss | hiss
    · unfold verifyCore
      dsimp only
      rw [hiss]
    · unfold verifyCore
      dsimp only
      rw [hiss]
      dsimp only
      rw [if_pos rfl]

/-- Witness for C6 at a parseable token with no issuer claim. -/
theorem C6_witness :
    verifyCore exNetDown 0 exFresh (Token.wf tokNoIss) =
      (Except.error (if Token.wf tokNoIss = Token.malformed then
        ErrKind.malformedToken else ErrKind.missingIssuer), exFresh, 0) :=
  C6_parse_failures_no_fetch_no_cache_change exNetDown 0 exFresh
    (Token.wf tokNoIss) (Or.inr ⟨tokNoIss, rfl, Or.inl rfl⟩)

/-- Claim C7: cross-issuer confusion is rejected.  Key lookup always uses
the token's own issuer claim, so if none of that issuer's key sources (its
cached client's key set, that client's URL, the issuer's discovery URL)
holds a key matching the token's kid and signature material, `verify`
fails — even when some other issuer's key set would validate the
signature (no hypothesis constrains other issuers' keys).  Moreover the
verifying decode itself rejects any token whose `iss` claim differs from
the issuer argument used for key lookup. -/
theorem C7_cross_issuer_rejected (net : Net) (now : Int) (st : Cache)
    (d : TokenData) (i : String)
    (hiss : d.payload.iss = some i)
    (hcache : ∀ c, lookupC i st = some c → ∀ kset, c.cached = some kset →
      ¬ hasMatch kset d)
    (hcurl : ∀ c, lookupC i st = some c → ∀ kset, net c.url = some kset →
      ¬ hasMatch kset d)
    (hnet : ∀ kset, net (jwksUrl i) = some kset → ¬ hasMatch kset d) :
    (∀ s, (verifyCore net now st (Token.wf d)).1 ≠ Except.ok s) ∧
    (∀ (key : JWK) (i' : String), d.payload.iss ≠ some i' →
      ∀ p, decodeVerified now key i' d ≠ Except.ok p) := by
  constructor
  · intro s hok
    obtain ⟨d0, i0, j, ht, hiss0, hi0, halg, hsig, hexp, hsub, hs, hsrc⟩ :=
      verifyCore_ok_inv net now st (Token.wf d) s hok
    injection ht with ht
    subst ht
    rw [hiss] at hiss0
    injection hiss0 with hii
    subst hii
    rcases hsrc with ⟨c, hlk, ⟨ks, hck, hfk⟩ | ⟨ks, hcu, hfk⟩⟩ | ⟨ks, hn, hfk⟩
    · obtain ⟨hmem, hkid⟩ := findKey_ok_inv ks d.kid j hfk
      exact hcache c hlk ks hck ⟨j, hmem, hkid, hsig⟩
    · obtain ⟨hmem, hkid⟩ := findKey_ok_inv ks d.kid j hfk
      exact hcurl c hlk ks hcu ⟨j, hmem, hkid, hsig⟩
    · obtain ⟨hmem, hkid⟩ := findKey_ok_inv ks d.kid j hfk
      exact hnet ks hn ⟨j, hmem, hkid, hsig⟩
  · intro key i' hne p hdec
    obtain ⟨-, -, -, h4, -⟩ := decodeVerified_ok_inv now key i' d p hdec
    exact hne h4

/-- Witness for C7: the example token (signed with material 7, belonging
to a different issuer's key) against an issuer whose cached and served key
sets only hold material 5 under kid `K1`; plus the issuer-mismatch guard
at a foreign issuer string. -/
theorem C7_witness :
    (verifyCore exNetOld 0 exStale (Token.wf exToken)).1 ≠
      Except.ok "user_42" ∧
    decodeVerified 0 exKeyNew "https://evil.example" exToken ≠
      Except.ok exPayload := by
  have h := C7_cross_issuer_rejected exNetOld 0 exStale exToken exIss
    (by decide)
    (by
      intro c hc kset hk
      have he : lookupC exIss exStale =
          some (⟨exUrl, some [exKeyOld]⟩ : JWKClient) := by decide
      rw [he] at hc
      injection hc with hc
      subst hc
      dsimp only at hk
      injection hk with hk
      subst hk
      decide)
    (by
      intro c hc kset hk
      have he : lookupC exIss exStale =
          some (⟨exUrl, some [exKeyOld]⟩ : JWKClient) := by decide
      rw [he] at hc
      injection hc with hc
      subst hc
      dsimp only at hk
      have hn : exNetOld exUrl = some [exKeyOld] := by decide
      rw [hn] at hk
      injection hk with hk
      subst hk
      decide)
    (by
      intro kset hk
      have hn : exNetOld (jwksUrl exIss) = some [exKeyOld] := by decide
      rw [hn] at hk
      injection hk with hk
      subst hk
      decide)
  exact ⟨h.1 "user_42", h.2 exKeyNew "https://evil.example" (by decide) exPayload⟩

/-- Claim C8: the audience claim is never enforced: two tokens differing
only in their `aud` claim (none, one, or many audiences) produce exactly
the same outcome, final cache state, and fetch count — both at the
internal level and after the HTTP mapping. -/
theorem C8_audience_never_enforced (net : Net) (now : Int) (st : Cache)
    (d : TokenData) (a1 a2 : Option (List String)) :
    verify net now st (Token.wf { d with payload := { d.payload with aud := a1 } }) =
      verify net now st (Token.wf { d with payload := { d.payload with aud := a2 } }) ∧
    verifyCore net now st (Token.wf { d with payload := { d.payload with aud := a1 } }) =
      verifyCore net now st (Token.wf { d with payload := { d.payload with aud := a2 } }) := by
  have hc := (verifyCore_aud net now st d a1).trans (verifyCore_aud net now st d a2).symm
  refine ⟨?_, hc⟩
  unfold verify
  dsimp only
  rw [hc]

/-- Claim C9: a token whose expiry claim lies in the past is rejected —
whatever the network, cache state, signature validity or algorithm (first
conjunct) — and in the cached-key, valid-signature scenario the failure is
specifically the expiry-class error. -/
theorem C9_expired_token_rejected (net : Net) (now : Int) (st : Cache)
    (d : TokenData) (e : Int)
    (hexp : d.payload.exp = some e) (hle : e ≤ now) :
    (∀ s, (verifyCore net now st (Token.wf d)).1 ≠ Except.ok s) ∧
    (∀ (i : String) (c : JWKClient) (kset : List JWK) (j : JWK),
      d.payload.iss = some i → i ≠ "" →
      lookupC i st = some c → c.cached = some kset →
      findKey kset d.kid = Except.ok j →
      d.alg = "RS256" → d.sigKey = j.material →
      (verifyCore net now st (Token.wf d)).1 = Except.error ErrKind.expired) := by
  have hexpb : expiredAt now d.payload = true := by
    unfold expiredAt
    rw [hexp]
    dsimp only
    exact decide_eq_true hle
  constructor
  · intro s hok
    obtain ⟨d0, i0, j, ht, -, -, -, -, hexp0, -, -, -⟩ :=
      verifyCore_ok_inv net now st (Token.wf d) s hok
    injection ht with ht
    subst ht
    rw [hexpb] at hexp0
    cases hexp0
  · intro i c kset j hiss hi hc hck hk halg hsig
    rw [verifyCore_cached_hit net now st d i c kset j hiss hi hc hck hk]
    dsimp only
    unfold finishV decodeVerified
    have hv : sigValid j d = true := by
      unfold sigValid
      rw [hsig]
      exact beq_self_eq_true _
    rw [halg, hv, hexpb]
    simp

/-- Witness for C9: spec §8's `T3` — the example token with its expiry in
the past, the signing key cached and the signature valid. -/
theorem C9_witness :
    (verifyCore exNet 0 exFresh (Token.wf exTokenExp)).1 ≠
      Except.ok "user_42" ∧
    (verifyCore exNet 0 exFresh (Token.wf exTokenExp)).1 =
      Except.error ErrKind.expired := by
  have h := C9_expired_token_rejected exNet 0 exFresh exTokenExp (-5)
    (by decide) (by decide)
  exact ⟨h.1 "user_42", h.2 exIss ⟨exUrl, some [exKeyNew]⟩ [exKeyNew] exKeyNew
    (by decide) (by decide) (by decide) (by decide) (by decide) (by decide)
    (by decide)⟩

/-- Claim C10: the accepted algorithm is the fixed `"RS256"` of the
verifier, not the token header's declaration: a token declaring any other
algorithm is rejected regardless of network and key-set contents (first
conjunct), and in the cached-key scenario the failure is specifically the
invalid-algorithm error raised by the verifying decode. -/
theorem C10_rs256_fixed_in_verifier (net : Net) (now : Int) (st : Cache)
    (d : TokenData) (halg : d.alg ≠ "RS256") :
    (∀ s, (verifyCore net now st (Token.wf d)).1 ≠ Except.ok s) ∧
    (∀ (i : String) (c : JWKClient) (kset : List JWK) (j : JWK),
      d.payload.iss = some i → i ≠ "" →
      lookupC i st = some c → c.cached = some kset →
      findKey kset d.kid = Except.ok j →
      (verifyCore net now st (Token.wf d)).1 =
        Except.error ErrKind.invalidAlgorithm) := by
  constructor
  · intro s hok
    obtain ⟨d0, i0, j, ht, -, -, halg0, -, -, -, -, -⟩ :=
      verifyCore_ok_inv net now st (Token.wf d) s hok
    injection ht with ht
    subst ht
    exact halg halg0
  · intro i c kset j hiss hi hc hck hk
    rw [verifyCore_cached_hit net now st d i c kset j hiss hi hc hck hk]
    dsimp only
    unfold finishV decodeVerified
    rw [if_neg halg]

/-- Witness for C10: the example token redeclared as `HS256` against the
cached current key set. -/
theorem C10_witness :
    (verifyCore exNet 0 exFresh (Token.wf exTokenHS)).1 ≠
      Except.ok "user_42" ∧
    (verifyCore exNet 0 exFresh (Token.wf exTokenHS)).1 =
      Except.error ErrKind.invalidAlgorithm := by
  have h := C10_rs256_fixed_in_verifier exNet 0 exFresh exTokenHS (by decide)
  exact ⟨h.1 "user_42", h.2 exIss ⟨exUrl, some [exKeyNew]⟩ [exKeyNew] exKeyNew
    (by decide) (by decide) (by decide) (by decide) (by decide)⟩

end AuthCore
